import Mathlib

/-!
Shallow embedding of `src/sense2vec/component.py` — the `Sense2VecComponent` annotation
binding layer of the sense2vec repository — together with spec-modelled definitions for
the collaborators whose source files are not part of `src/` (the `Sense2Vec` vector store
in `src/sense2vec/sense2vec.py` and the helpers in `src/sense2vec/util.py`).

Python exceptions are embedded as `Except S2VError`; the spaCy global extension registry
is embedded as an explicit `Registry` value threaded through the stateful operations; the
per-document `_s2v` extension slot is an `Option Sense2Vec` field on `Doc`.
-/

namespace Sense2vecSpec

/-- A sense2vec key, a string of the form "word|SENSE". -/
abbrev Key := String

/-- A stored vector (`numpy.ndarray` in the source), abstracted to its list of entries. -/
abbrev Vec := List Int

/-- The error taxonomy of the annotation layer (spec §7): `UnboundDocument` embeds the
Python failure of reading the unset `_s2v` slot of an unprocessed document (in the source,
an `AttributeError` on `None.make_key` or a failed lookup on `None`); `MissingExtension`
embeds the `AttributeError` raised when an extension attribute that was never registered
on a spaCy object kind is read. -/
inductive S2VError where
  | UnboundDocument : S2VError
  | KeyNotFound : Key → S2VError
  | InvalidArgument : S2VError
  | UnresolvableSense : S2VError
  | MissingExtension : String → S2VError
  deriving DecidableEq, Repr

/-- Modelled from the spec: the Vector Store (class `Sense2Vec`, file
`src/sense2vec/sense2vec.py`, which is not under `src/`). Per spec §1/§6 it holds
(key → vector) and (key → frequency) mappings, supports membership test, nearest-neighbor
query, other-senses query, key encode/decode, and binary (de)serialization; it optionally
shares the host pipeline's string table. Neighbor and other-sense answers are stored as
finite tables, in the order the store returns them. -/
structure Sense2Vec where
  shape : Nat × Nat
  entries : List (Key × Vec)
  freqs : List (Key × Nat)
  neighbors : List (Key × List (Key × Int))
  senses : List (Key × List Key)
  strings : Option (List String)
  deriving DecidableEq, Repr

/-- Modelled from the spec: `Sense2Vec(shape=shape, strings=strings)` allocates an empty
Vector Store of the given dimensionality with the given (optional) shared string table. -/
def Sense2Vec.empty (shape : Nat × Nat) (strings : Option (List String)) : Sense2Vec :=
  { shape := shape, entries := [], freqs := [], neighbors := [], senses := [],
    strings := strings }

/-- Modelled from the spec: membership test `contains(key)` (`key in s2v`). -/
def Sense2Vec.contains (s : Sense2Vec) (k : Key) : Bool :=
  (s.entries.lookup k).isSome

/-- Modelled from the spec: `get(key) -> vector` (`s2v[key]`); a key absent from the store
is a hard `KeyNotFound` error, not an empty vector (spec §7). -/
def Sense2Vec.get (s : Sense2Vec) (k : Key) : Except S2VError Vec :=
  match s.entries.lookup k with
  | some v => Except.ok v
  | none => Except.error (S2VError.KeyNotFound k)

/-- Modelled from the spec: `getFrequency(key) -> int`; the stored count, with no default
invented by the layer. -/
def Sense2Vec.get_freq (s : Sense2Vec) (k : Key) : Except S2VError Nat :=
  match s.freqs.lookup k with
  | some f => Except.ok f
  | none => Except.error (S2VError.KeyNotFound k)

/-- Modelled from the spec: `makeKey(text, sense)` produces `"{normalized_text}|{SENSE}"`
(spec §4.1 output format). -/
def Sense2Vec.make_key (_s : Sense2Vec) (word sense : String) : Key :=
  word ++ "|" ++ sense

/-- Splits a character list at the last occurrence of `'|'`: returns the characters before
it and after it, or `none` when no `'|'` occurs. -/
def splitLastAux : List Char → Option (List Char × List Char)
  | [] => none
  | c :: rest =>
    match splitLastAux rest with
    | some p => some (c :: p.1, p.2)
    | none => if c = '|' then some ([], rest) else none

/-- Modelled from the spec: `splitKey(key) -> (word, sense)` splits on the last occurrence
of the separator (spec §4.1 decode). -/
def Sense2Vec.split_key (_s : Sense2Vec) (k : Key) : String × String :=
  match splitLastAux k.data with
  | some p => (String.mk p.1, String.mk p.2)
  | none => (k, "")

/-- Modelled from the spec: `mostSimilar(keys, n)` asks the store for the `n` nearest
neighbors of the query set; `n` must be a positive integer and `n ≤ 0` fails with
`InvalidArgument` (spec §4.2); at most `n` results are returned, similarity-descending in
the order stored (spec §3, `SimilarityResult`). -/
def Sense2Vec.most_similar (s : Sense2Vec) (keys : List Key) (n : Int) :
    Except S2VError (List (Key × Int)) :=
  if n ≤ 0 then Except.error S2VError.InvalidArgument
  else Except.ok ((keys.flatMap (fun k => (s.neighbors.lookup k).getD [])).take n.toNat)

/-- Modelled from the spec: `getOtherSenses(key)` returns all other sense-variants sharing
the same word, in the order the store returns them. -/
def Sense2Vec.get_other_senses (s : Sense2Vec) (k : Key) : List Key :=
  (s.senses.lookup k).getD []

/-- Modelled from the spec: the payload of the store's binary serialization; the same
content stands for the directory format of `saveToPath`/`loadFromPath`. The string table
is carried as an optional field so that the exclusion contract is observable. -/
structure S2VPayload where
  shape : Nat × Nat
  entries : List (Key × Vec)
  freqs : List (Key × Nat)
  neighbors : List (Key × List (Key × Int))
  senses : List (Key × List Key)
  strings : Option (List String)
  deriving DecidableEq, Repr

/-- Modelled from the spec: `serialize(excluding)` — the store's own binary serialization;
a name listed in `exclude` is omitted from the payload. -/
def Sense2Vec.to_bytes (s : Sense2Vec) (exclude : List String) : S2VPayload :=
  { shape := s.shape, entries := s.entries, freqs := s.freqs, neighbors := s.neighbors,
    senses := s.senses,
    strings := if "strings" ∈ exclude then none else s.strings }

/-- Modelled from the spec: `deserialize(bytes, excluding)` — rebuilds the store from the
payload; an excluded name keeps the receiving store's own value instead of the payload's
(the string table is re-attached from the host, spec §4.2/§6). -/
def Sense2Vec.from_bytes (s : Sense2Vec) (p : S2VPayload) (exclude : List String) :
    Sense2Vec :=
  { shape := p.shape, entries := p.entries, freqs := p.freqs, neighbors := p.neighbors,
    senses := p.senses,
    strings := if "strings" ∈ exclude then s.strings else p.strings }

/-- Modelled from the spec: `saveToPath` is the directory-based equivalent of `serialize`,
with the same exclusion rule (spec §4.2). -/
def Sense2Vec.to_disk (s : Sense2Vec) (exclude : List String) : S2VPayload :=
  s.to_bytes exclude

/-- Modelled from the spec: `loadFromPath` is the directory-based equivalent of
`deserialize`, with the same exclusion rule (spec §4.2). -/
def Sense2Vec.from_disk (s : Sense2Vec) (p : S2VPayload) (exclude : List String) :
    Sense2Vec :=
  s.from_bytes p exclude

/-- The host's shared vocab; the layer only uses its string store
(`vocab.strings` in `Sense2VecComponent.__init__`). -/
structure Vocab where
  strings : List String
  deriving DecidableEq, Repr

/-- A spaCy `Doc`, reduced to the fields the component touches: its text and the
`_s2v` extension slot (default `None`) that `__call__` stamps with the store reference. -/
structure Doc where
  text : String
  s2v : Option Sense2Vec
  deriving DecidableEq, Repr

/-- A spaCy `Token` or `Span`, reduced to the fields the component reads: the owning
document (`obj.doc`), the text, the coarse grammatical tag (`pos_`), the entity label
(empty when none), whether the object is — or resolves to — a recognized entity span, and
the object-level `_s2v` slot read by `s2v_other_senses` (line 130 reads `obj._._s2v`
rather than `obj.doc._._s2v`; `init_component` never registers `_s2v` on `Token` or
`Span`, so this slot is never populated by the component). -/
structure Obj where
  doc : Doc
  text : String
  pos : String
  ent_label : String
  is_ent : Bool
  own_s2v : Option Sense2Vec
  deriving DecidableEq, Repr

/-- The spaCy global extension registry, reduced to what the claims observe: whether the
component's accessor extensions have been registered, and a counter of how many times the
registration step (`init_component`) has run. -/
structure Registry where
  registered : Bool
  regCount : Nat
  deriving DecidableEq, Repr

/-- Uppercases a string character by character (embeds Python's `str.upper` on the ASCII
tags and labels the component handles). -/
def upper (s : String) : String :=
  String.mk (s.data.map Char.toUpper)

/-- Collapses each run of spaces into a single underscore. -/
def collapseWs : List Char → List Char
  | [] => []
  | c :: rest =>
    if c = ' ' then
      match collapseWs rest with
      | [] => []
      | '_' :: tail => '_' :: tail
      | tail => '_' :: tail
    else c :: collapseWs rest

/-- Modelled from the spec: text normalization of the key codec (`make_spacy_key` lives in
`src/sense2vec/util.py`, which is not under `src/`): lower-cased, internal whitespace
collapsed to single underscores (spec §4.1). -/
def normalize_text (s : String) : String :=
  String.mk (collapseWs (s.data.map Char.toLower))

/-- The sense component resolved by the key codec for an object (spec §4.1 policy): the
entity label uppercased when `preferEnts` (merge mode) holds and the object is — or
resolves to — a recognized entity span; the coarse grammatical tag uppercased otherwise. -/
def resolved_sense (preferEnts : Bool) (obj : Obj) : String :=
  if preferEnts && obj.is_ent then upper obj.ent_label else upper obj.pos

/-- Modelled from the spec: `make_spacy_key(obj, make_key, prefer_ents)` from
`src/sense2vec/util.py`, which is not under `src/`. Per spec §4.1: when `prefer_ents`
(merge mode) holds and the object is (or resolves to) a recognized entity span, the sense
component is the entity label uppercased; otherwise the coarse grammatical tag uppercased;
an empty resolved sense fails with `UnresolvableSense`; the key is built by the supplied
`make_key` from the normalized text and the sense. -/
def make_spacy_key (obj : Obj) (mk : String → String → Key) (preferEnts : Bool) :
    Except S2VError Key :=
  let sense := resolved_sense preferEnts obj
  if sense = "" then Except.error S2VError.UnresolvableSense
  else Except.ok (mk (normalize_text obj.text) sense)

/-- The annotation binding layer, `Sense2VecComponent` (src/sense2vec/component.py,
lines 12–32): a reference to the Vector Store, the one-shot `first_run` flag
(true = registration not yet performed) and the merge-mode flag. -/
structure Sense2VecComponent where
  s2v : Sense2Vec
  first_run : Bool
  merge_phrases : Bool
  deriving DecidableEq, Repr

/-- Embeds `Sense2VecComponent.__init__` (lines 15–32): builds the store from the optional
vocab's string table, sets `first_run := true` and the merge flag. The registry parameter
embeds the spaCy global extension table, which `__init__` never touches: it is returned
unchanged. -/
def Sense2VecComponent.construct (vocab : Option Vocab) (shape : Nat × Nat)
    (mergePhrases : Bool) (reg : Registry) : Sense2VecComponent × Registry :=
  ({ s2v := Sense2Vec.empty shape (vocab.map Vocab.strings),
     first_run := true, merge_phrases := mergePhrases }, reg)

/-- Embeds `Sense2VecComponent.init_component` (lines 59–73): registers the `_s2v` and
`s2v_phrases` extensions on `Doc` and the six accessor extensions on `Token` and `Span`.
In the embedding the registration is the observable transition of the registry: the
`registered` flag is set and the registration counter is incremented. -/
def init_component (reg : Registry) : Registry :=
  { registered := true, regCount := reg.regCount + 1 }

/-- Embeds `Sense2VecComponent.__call__` (lines 44–57): on the first run, perform the one-time
registration and clear `first_run`; then stamp the `_s2v` slot of the document with this
layer's store; then, when merge mode is on, replace the document with the phrase merger's
output. The merger (`merge_phrases` from `src/sense2vec/util.py`, not under `src/`) is an
external transform passed as a parameter. -/
def Sense2VecComponent.call (c : Sense2VecComponent) (reg : Registry) (doc : Doc)
    (merger : Doc → Doc) : Sense2VecComponent × Registry × Doc :=
  let p := if c.first_run then ({ c with first_run := false }, init_component reg)
           else (c, reg)
  let doc1 : Doc := { doc with s2v := some p.1.s2v }
  let doc2 := if p.1.merge_phrases then merger doc1 else doc1
  (p.1, p.2, doc2)

/-- The processing order asserted by the spec for `process` (spec §4.2): first replace the
document with the Phrase-Merger's output, then stamp the `DocumentBinding` on the replaced
document. This definition follows the spec's words; `Sense2VecComponent.call` follows the
source. -/
def Sense2VecComponent.callSpecOrder (c : Sense2VecComponent) (reg : Registry) (doc : Doc)
    (merger : Doc → Doc) : Sense2VecComponent × Registry × Doc :=
  let p := if c.first_run then ({ c with first_run := false }, init_component reg)
           else (c, reg)
  let doc1 := if p.1.merge_phrases then merger doc else doc
  let doc2 : Doc := { doc1 with s2v := some p.1.s2v }
  (p.1, p.2, doc2)

/-- Runs `__call__` over a sequence of documents, threading the component and the
registry; the processed documents themselves are not needed by the state-machine claims. -/
def processAll (c : Sense2VecComponent) (reg : Registry) (merger : Doc → Doc) :
    List Doc → Sense2VecComponent × Registry
  | [] => (c, reg)
  | d :: ds =>
    processAll (c.call reg d merger).1 (c.call reg d merger).2.1 merger ds

/-- Embeds `Sense2VecComponent.s2v_key` (lines 99–108): builds the key via `make_spacy_key`,
passing the bound store's `make_key` and `prefer_ents=self.merge_phrases`. Reading
`obj.doc._._s2v.make_key` on an unprocessed document fails (`None` has no `make_key`),
embedded as `UnboundDocument`. -/
def Sense2VecComponent.s2v_key (c : Sense2VecComponent) (obj : Obj) :
    Except S2VError Key :=
  match obj.doc.s2v with
  | none => Except.error S2VError.UnboundDocument
  | some s2v => make_spacy_key obj (s2v.make_key) c.merge_phrases

/-- Embeds `Sense2VecComponent.in_s2v` (lines 75–81): `self.s2v_key(obj) in obj.doc._._s2v`;
the key is computed first, then membership is tested against the document's bound store. -/
def Sense2VecComponent.in_s2v (c : Sense2VecComponent) (obj : Obj) :
    Except S2VError Bool :=
  match c.s2v_key obj with
  | Except.error e => Except.error e
  | Except.ok key =>
    match obj.doc.s2v with
    | none => Except.error S2VError.UnboundDocument
    | some s2v => Except.ok (s2v.contains key)

/-- Embeds `Sense2VecComponent.s2v_vec` (lines 83–89): `obj.doc._._s2v[self.s2v_key(obj)]`;
a store failure (`KeyNotFound`) propagates unchanged. -/
def Sense2VecComponent.s2v_vec (c : Sense2VecComponent) (obj : Obj) :
    Except S2VError Vec :=
  match c.s2v_key obj with
  | Except.error e => Except.error e
  | Except.ok key =>
    match obj.doc.s2v with
    | none => Except.error S2VError.UnboundDocument
    | some s2v => s2v.get key

/-- Embeds `Sense2VecComponent.s2v_freq` (lines 91–97): `obj.doc._._s2v.get_freq(...)`. -/
def Sense2VecComponent.s2v_freq (c : Sense2VecComponent) (obj : Obj) :
    Except S2VError Nat :=
  match c.s2v_key obj with
  | Except.error e => Except.error e
  | Except.ok key =>
    match obj.doc.s2v with
    | none => Except.error S2VError.UnboundDocument
    | some s2v => s2v.get_freq key

/-- Embeds `Sense2VecComponent.s2v_most_similar` (lines 110–121): queries the document's bound
store with the single-element key list, then decodes each returned key via
`self.s2v.split_key` (the layer's own store is used for the split). -/
def Sense2VecComponent.s2v_most_similar (c : Sense2VecComponent) (obj : Obj) (n : Int) :
    Except S2VError (List ((String × String) × Int)) :=
  match c.s2v_key obj with
  | Except.error e => Except.error e
  | Except.ok key =>
    match obj.doc.s2v with
    | none => Except.error S2VError.UnboundDocument
    | some s2v =>
      match s2v.most_similar [key] n with
      | Except.error e => Except.error e
      | Except.ok results =>
        Except.ok (results.map (fun r => (c.s2v.split_key r.1, r.2)))

/-- Embeds `Sense2VecComponent.s2v_other_senses` (lines 123–130): computes the key (which reads
the document binding), then reads `obj._._s2v` — the OBJECT-level slot, not
`obj.doc._._s2v`. `init_component` registers `_s2v` on `Doc` only, so on a `Token` or
`Span` this read raises `AttributeError`, embedded as `MissingExtension "_s2v"` when the
object slot is absent. -/
def Sense2VecComponent.s2v_other_senses (c : Sense2VecComponent) (obj : Obj) :
    Except S2VError (List Key) :=
  match c.s2v_key obj with
  | Except.error e => Except.error e
  | Except.ok key =>
    match obj.own_s2v with
    | none => Except.error (S2VError.MissingExtension "_s2v")
    | some s2v => Except.ok (s2v.get_other_senses key)

/-- Embeds `Sense2VecComponent.to_bytes` (lines 132–137): `self.s2v.to_bytes(exclude=["strings"])`. -/
def Sense2VecComponent.to_bytes (c : Sense2VecComponent) : S2VPayload :=
  c.s2v.to_bytes ["strings"]

/-- Embeds `Sense2VecComponent.from_bytes` (lines 139–146):
`self.s2v = Sense2Vec().from_bytes(bytes_data, exclude=["strings"]); return self` — the
store field is replaced by one loaded into a fresh default store, everything else is kept,
and the (mutated) component itself is returned. -/
def Sense2VecComponent.from_bytes (c : Sense2VecComponent) (p : S2VPayload) :
    Sense2VecComponent :=
  { c with s2v := (Sense2Vec.empty (1000, 128) none).from_bytes p ["strings"] }

/-- Embeds `Sense2VecComponent.to_disk` (lines 148–153): `self.s2v.to_disk(path, exclude=["strings"])`;
the payload written at the path is the result. -/
def Sense2VecComponent.to_disk (c : Sense2VecComponent) : S2VPayload :=
  c.s2v.to_disk ["strings"]

/-- Embeds `Sense2VecComponent.from_disk` (lines 155–162):
`self.s2v = Sense2Vec().from_disk(path, exclude=["strings"]); return self`. -/
def Sense2VecComponent.from_disk (c : Sense2VecComponent) (p : S2VPayload) :
    Sense2VecComponent :=
  { c with s2v := (Sense2Vec.empty (1000, 128) none).from_disk p ["strings"] }

/-! Concrete instances used by per-claim witnesses and counterexamples. -/

/-- An empty store for the C1 instance. -/
def c1Store : Sense2Vec := Sense2Vec.empty (1000, 128) none

/-- A freshly constructed component (first run still pending) for the C1 witness. -/
def c1Comp : Sense2VecComponent :=
  { s2v := c1Store, first_run := true, merge_phrases := false }

/-- A pristine registry (nothing registered yet) for the C1 witness. -/
def c1Reg : Registry := { registered := false, regCount := 0 }

/-- First document of the C1 witness. -/
def c1DocA : Doc := { text := "first", s2v := none }

/-- Second document of the C1 witness. -/
def c1DocB : Doc := { text := "second", s2v := none }

/-- A component for the C2 witness. -/
def c2Comp : Sense2VecComponent :=
  { s2v := Sense2Vec.empty (1000, 128) none, first_run := false, merge_phrases := false }

/-- A token whose document never went through `process` (its `_s2v` slot is unset), for
the C2 witness. -/
def c2Obj : Obj :=
  { doc := { text := "the dog", s2v := none }, text := "dog", pos := "NOUN",
    ent_label := "", is_ent := false, own_s2v := none }

/-- A store knowing another sense of "duck|NOUN", for the C3 evaluation. -/
def c3Store : Sense2Vec :=
  { shape := (2, 2), entries := [("duck|NOUN", [1, 0])], freqs := [("duck|NOUN", 5)],
    neighbors := [], senses := [("duck|NOUN", ["duck|VERB"])], strings := none }

/-- A document already processed (its `_s2v` slot stamped with `c3Store`). -/
def c3Doc : Doc := { text := "duck", s2v := some c3Store }

/-- The component owning `c3Store`, for the C3 evaluation. -/
def c3Comp : Sense2VecComponent :=
  { s2v := c3Store, first_run := false, merge_phrases := false }

/-- A token of the processed `c3Doc`; like every spaCy token it has no object-level
`_s2v` slot (the component registers `_s2v` on `Doc` only). -/
def c3Obj : Obj :=
  { doc := c3Doc, text := "duck", pos := "NOUN", ent_label := "", is_ent := false,
    own_s2v := none }

/-- A store holding the entity-sense key, for the C4 witness. -/
def c4Store : Sense2Vec :=
  { shape := (2, 2), entries := [("new_york|GPE", [0, 1])], freqs := [], neighbors := [],
    senses := [], strings := none }

/-- A merge-mode component, for the C4 witness. -/
def c4Comp : Sense2VecComponent :=
  { s2v := c4Store, first_run := false, merge_phrases := true }

/-- An entity span "New York" with label GPE on a processed document, for the C4
witness. -/
def c4Obj : Obj :=
  { doc := { text := "New York", s2v := some c4Store }, text := "New York",
    pos := "PROPN", ent_label := "GPE", is_ent := true, own_s2v := none }

/-- A store for the C5 counterexample. -/
def c5Store : Sense2Vec :=
  { shape := (2, 2), entries := [("new_york|GPE", [0, 1])], freqs := [], neighbors := [],
    senses := [], strings := none }

/-- A merge-mode component past its first run, for the C5 counterexample. -/
def c5Comp : Sense2VecComponent :=
  { s2v := c5Store, first_run := false, merge_phrases := true }

/-- A registry after registration, for the C5 counterexample. -/
def c5Reg : Registry := { registered := true, regCount := 1 }

/-- An unprocessed document, for the C5 counterexample. -/
def c5Doc : Doc := { text := "new york", s2v := none }

/-- A phrase merger that produces the merged document as a fresh document whose binding
slot is unset — consistent with the spec's interface for the external Phrase Merger,
which promises nothing about the `_s2v` slot of its output. -/
def c5Merger (d : Doc) : Doc := { text := normalize_text d.text, s2v := none }

/-- A store with four equally scored neighbors of "dog|NOUN", for the C6 witness. -/
def c6Store : Sense2Vec :=
  { shape := (2, 2), entries := [("dog|NOUN", [1, 1])], freqs := [],
    neighbors := [("dog|NOUN",
      [("wolf|NOUN", 9), ("cat|NOUN", 9), ("fox|NOUN", 9), ("pup|NOUN", 9)])],
    senses := [], strings := none }

/-- The component owning `c6Store`, for the C6 witness. -/
def c6Comp : Sense2VecComponent :=
  { s2v := c6Store, first_run := false, merge_phrases := false }

/-- A token "dog"/NOUN of a processed document bound to `c6Store`, for the C6 witness. -/
def c6Obj : Obj :=
  { doc := { text := "dog", s2v := some c6Store }, text := "dog", pos := "NOUN",
    ent_label := "", is_ent := false, own_s2v := none }

/-- A store populated with "dog|NOUN" only, for the C7 witness. -/
def c7Store : Sense2Vec :=
  { shape := (2, 2), entries := [("dog|NOUN", [3, 4])], freqs := [("dog|NOUN", 42)],
    neighbors := [], senses := [], strings := none }

/-- The component owning `c7Store`, for the C7 witness. -/
def c7Comp : Sense2VecComponent :=
  { s2v := c7Store, first_run := false, merge_phrases := false }

/-- A token "cat"/NOUN — absent from `c7Store` — on a processed document bound to
`c7Store`, for the C7 witness. -/
def c7Obj : Obj :=
  { doc := { text := "cat", s2v := some c7Store }, text := "cat", pos := "NOUN",
    ent_label := "", is_ent := false, own_s2v := none }

/-- A store current before the C10 load. -/
def c10Store : Sense2Vec :=
  { shape := (1, 1), entries := [("dog|NOUN", [1])], freqs := [], neighbors := [],
    senses := [], strings := none }

/-- A component owning `c10Store` and past its first run, for the C10 witness. -/
def c10Comp : Sense2VecComponent :=
  { s2v := c10Store, first_run := false, merge_phrases := false }

/-- A serialized payload holding a different table than `c10Store`, for the C10
witness. -/
def c10Payload : S2VPayload :=
  { shape := (1, 1), entries := [("cat|NOUN", [2])], freqs := [], neighbors := [],
    senses := [], strings := some ["host table"] }

/-- A registry after registration, for the C10 witness. -/
def c10Reg : Registry := { registered := true, regCount := 1 }

/-- A document processed before the C10 load. -/
def c10Doc : Doc := { text := "dog", s2v := none }

/-! Helper lemmas shared by the claim theorems. -/

/-- When the first run is over, `__call__` leaves the component and the registry
untouched. -/
theorem call_state_of_not_first (c : Sense2VecComponent) (reg : Registry) (d : Doc)
    (m : Doc → Doc) (h : c.first_run = false) :
    (c.call reg d m).1 = c ∧ (c.call reg d m).2.1 = reg := by
  simp [Sense2VecComponent.call, h]

/-- When the first run is over, processing any sequence of documents leaves the component
and the registry untouched. -/
theorem processAll_state_of_not_first (c : Sense2VecComponent) (reg : Registry)
    (m : Doc → Doc) (ds : List Doc) (h : c.first_run = false) :
    processAll c reg m ds = (c, reg) := by
  induction ds generalizing c reg with
  | nil => rfl
  | cons d ds ih =>
    rcases call_state_of_not_first c reg d m h with ⟨h1, h2⟩
    simp only [processAll, h1, h2]
    exact ih c reg h

/-- A character list without `'|'` has no last-separator split. -/
theorem splitLastAux_eq_none (cs : List Char) (h : '|' ∉ cs) : splitLastAux cs = none := by
  induction cs with
  | nil => rfl
  | cons c rest ih =>
    simp only [List.mem_cons, not_or] at h
    have hc : ¬ c = '|' := fun hc => h.1 hc.symm
    simp [splitLastAux, ih h.2, hc]

/-- Splitting at the last separator undoes surrounding a separator-free suffix. -/
theorem splitLastAux_append (w s : List Char) (h : '|' ∉ s) :
    splitLastAux (w ++ '|' :: s) = some (w, s) := by
  induction w with
  | nil => simp [splitLastAux, splitLastAux_eq_none s h]
  | cons c w ih => simp [splitLastAux, ih]

/-- Round trip of the key codec: `splitKey` undoes `makeKey` whenever the sense component
does not contain the separator. -/
theorem split_key_make_key (st st2 : Sense2Vec) (w s : String) (h : '|' ∉ s.data) :
    st2.split_key (st.make_key w s) = (w, s) := by
  have hdata : (w ++ "|" ++ s).data = w.data ++ '|' :: s.data := by
    simp [String.data_append]
  simp only [Sense2Vec.split_key, Sense2Vec.make_key, hdata,
    splitLastAux_append w.data s.data h]

/-! Claim theorems. -/

/-- C1: For every sequence of `process` calls on the layer, the one-time registration of
the accessor extensions runs exactly once: it runs during the first call (the registration
counter rises by exactly one over the whole sequence, and the registry becomes
registered), the `first_run` flag transitions true→false at that point and never resets,
and no later call repeats the registration. -/
theorem c1_one_shot_registration (c : Sense2VecComponent) (reg : Registry)
    (m : Doc → Doc) (docs : List Doc) (h : c.first_run = true) :
    (processAll c reg m docs).1.first_run = decide (docs = []) ∧
    (processAll c reg m docs).2.regCount
      = reg.regCount + (if docs = [] then 0 else 1) ∧
    (processAll c reg m docs).2.registered
      = (reg.registered || !decide (docs = [])) := by
  cases docs with
  | nil => simp [processAll, h]
  | cons d ds =>
    have h1 : (c.call reg d m).1 = { c with first_run := false } := by
      simp [Sense2VecComponent.call, h]
    have h2 : (c.call reg d m).2.1 = init_component reg := by
      simp [Sense2VecComponent.call, h]
    have hsteady :=
      processAll_state_of_not_first ({ c with first_run := false }) (init_component reg)
        m ds rfl
    simp only [processAll, h1, h2, hsteady]
    simp [init_component]

/-- Witness for C1: a fresh component and a pristine registry, two documents processed:
the flag has transitioned and the registration counter shows exactly 1. -/
theorem c1_one_shot_registration_witness :
    (processAll c1Comp c1Reg id [c1DocA, c1DocB]).1.first_run = false ∧
    (processAll c1Comp c1Reg id [c1DocA, c1DocB]).2.regCount = 1 ∧
    (processAll c1Comp c1Reg id [c1DocA, c1DocB]).2.registered = true := by
  have h := c1_one_shot_registration c1Comp c1Reg id [c1DocA, c1DocB] rfl
  refine ⟨by simpa using h.1, by simpa [c1Reg] using h.2.1, by simpa [c1Reg] using h.2.2⟩

/-- C2: every one of the five accessor operations, invoked on a token or span whose
document was never passed through `process` (its `_s2v` slot unset), fails with the
unbound-document error. -/
theorem c2_unbound_document (c : Sense2VecComponent) (obj : Obj) (n : Int)
    (h : obj.doc.s2v = none) :
    c.in_s2v obj = Except.error S2VError.UnboundDocument ∧
    c.s2v_vec obj = Except.error S2VError.UnboundDocument ∧
    c.s2v_freq obj = Except.error S2VError.UnboundDocument ∧
    c.s2v_most_similar obj n = Except.error S2VError.UnboundDocument ∧
    c.s2v_other_senses obj = Except.error S2VError.UnboundDocument := by
  have hk : c.s2v_key obj = Except.error S2VError.UnboundDocument := by
    simp [Sense2VecComponent.s2v_key, h]
  refine ⟨?_, ?_, ?_, ?_, ?_⟩ <;>
    simp [Sense2VecComponent.in_s2v, Sense2VecComponent.s2v_vec,
      Sense2VecComponent.s2v_freq, Sense2VecComponent.s2v_most_similar,
      Sense2VecComponent.s2v_other_senses, hk, h]

/-- Witness for C2: a concrete token of an unprocessed document, all five accessors
(`n = 10` for the similarity query). -/
theorem c2_unbound_document_witness :
    c2Comp.in_s2v c2Obj = Except.error S2VError.UnboundDocument ∧
    c2Comp.s2v_vec c2Obj = Except.error S2VError.UnboundDocument ∧
    c2Comp.s2v_freq c2Obj = Except.error S2VError.UnboundDocument ∧
    c2Comp.s2v_most_similar c2Obj 10 = Except.error S2VError.UnboundDocument ∧
    c2Comp.s2v_other_senses c2Obj = Except.error S2VError.UnboundDocument :=
  c2_unbound_document c2Comp c2Obj 10 rfl

/-- C3 (evaluation of the code at the failing input): on a token of a processed document
— whose document-level binding is present and whose store answers the other-senses query
with ["duck|VERB"] — `s2v_other_senses` does NOT locate the store through the document
binding: it reads the object-level `_s2v` slot, which `init_component` never registers on
`Token` or `Span`, and therefore fails, where the claim (and the behavior of every other
accessor) requires the answer read off `obj.doc`. -/
theorem c3_other_senses_reads_object_slot :
    c3Obj.doc.s2v = some c3Store ∧
    c3Comp.s2v_key c3Obj = Except.ok "duck|NOUN" ∧
    c3Store.get_other_senses "duck|NOUN" = ["duck|VERB"] ∧
    c3Comp.s2v_other_senses c3Obj = Except.error (S2VError.MissingExtension "_s2v") := by
  refine ⟨rfl, rfl, rfl, rfl⟩

/-- C4: whenever the codec resolves a non-empty, separator-free sense, the encoded key is
the normalized text joined to the resolved sense — the entity label uppercased when merge
mode is on and the object is (or resolves to) a recognized entity span, the coarse
grammatical tag uppercased otherwise — and decoding the key recovers exactly that sense
component. -/
theorem c4_sense_component (c : Sense2VecComponent) (obj : Obj) (store : Sense2Vec)
    (hb : obj.doc.s2v = some store)
    (hs : resolved_sense c.merge_phrases obj ≠ "")
    (hsep : '|' ∉ (resolved_sense c.merge_phrases obj).data) :
    c.s2v_key obj =
      Except.ok (store.make_key (normalize_text obj.text)
        (resolved_sense c.merge_phrases obj)) ∧
    (store.split_key (store.make_key (normalize_text obj.text)
        (resolved_sense c.merge_phrases obj))).2
      = resolved_sense c.merge_phrases obj ∧
    (store.split_key (store.make_key (normalize_text obj.text)
        (resolved_sense c.merge_phrases obj))).1
      = normalize_text obj.text := by
  have hsplit := split_key_make_key store store (normalize_text obj.text)
    (resolved_sense c.merge_phrases obj) hsep
  refine ⟨?_, by rw [hsplit], by rw [hsplit]⟩
  simp [Sense2VecComponent.s2v_key, hb, make_spacy_key, hs]

/-- Witness for C4: the merge-mode component and the entity span "New York"/GPE; the key
is "new_york|GPE" and its sense component decodes back to "GPE". -/
theorem c4_sense_component_witness :
    c4Comp.s2v_key c4Obj =
      Except.ok (c4Store.make_key (normalize_text c4Obj.text)
        (resolved_sense c4Comp.merge_phrases c4Obj)) ∧
    (c4Store.split_key (c4Store.make_key (normalize_text c4Obj.text)
        (resolved_sense c4Comp.merge_phrases c4Obj))).2
      = resolved_sense c4Comp.merge_phrases c4Obj ∧
    (c4Store.split_key (c4Store.make_key (normalize_text c4Obj.text)
        (resolved_sense c4Comp.merge_phrases c4Obj))).1
      = normalize_text c4Obj.text :=
  c4_sense_component c4Comp c4Obj c4Store rfl (by decide) (by decide)

/-- C5 counterexample: the claim asserts that with merge mode on, `process` merges first
and stamps afterwards, so the returned document carries the binding. At this concrete
input — a merger whose output document has an unset binding slot, as the spec's interface
for the external Phrase Merger permits — the source's `__call__` returns a document whose
binding slot is `none`, while the order the claim describes (`callSpecOrder`) would
return it stamped. -/
theorem c5_counterexample :
    c5Comp.merge_phrases = true ∧
    ((c5Comp.call c5Reg c5Doc c5Merger).2.2).s2v = none ∧
    ((c5Comp.callSpecOrder c5Reg c5Doc c5Merger).2.2).s2v = some c5Comp.s2v := by
  refine ⟨rfl, rfl, rfl⟩

/-- C5 (amended): for every document passed to `process` with merge mode on, `process`
first stamps the DocumentBinding on the input document and then replaces the document
with the Phrase-Merger's output for the stamped document; the returned document carries
the binding whenever the merger preserves the binding slot of its input. -/
theorem c5_stamp_then_merge (c : Sense2VecComponent) (reg : Registry) (doc : Doc)
    (m : Doc → Doc) (h : c.merge_phrases = true) :
    (c.call reg doc m).2.2 = m { doc with s2v := some c.s2v } ∧
    ((∀ d, (m d).s2v = d.s2v) → ((c.call reg doc m).2.2).s2v = some c.s2v) := by
  constructor
  · cases hf : c.first_run <;> simp [Sense2VecComponent.call, hf, h]
  · intro hp
    cases hf : c.first_run <;> simp [Sense2VecComponent.call, hf, h, hp]

/-- Witness for C5 (amended): the merge-mode component with the identity merger — which
preserves the binding slot — on a concrete document. -/
theorem c5_stamp_then_merge_witness :
    (c5Comp.call c5Reg c5Doc id).2.2 = id { c5Doc with s2v := some c5Comp.s2v } ∧
    ((∀ d, (id d : Doc).s2v = d.s2v) →
      ((c5Comp.call c5Reg c5Doc id).2.2).s2v = some c5Comp.s2v) :=
  c5_stamp_then_merge c5Comp c5Reg c5Doc id rfl

/-- C6: on a bound object whose key encodes successfully, `mostSimilar` with `n ≤ 0`
fails with `InvalidArgument`; with positive `n` it returns the store's answer — at most
`n` pairs, each returned key decoded via the key codec's split, in the store's order. -/
theorem c6_most_similar (c : Sense2VecComponent) (obj : Obj) (store : Sense2Vec)
    (k : Key) (n : Int) (hb : obj.doc.s2v = some store)
    (hk : c.s2v_key obj = Except.ok k) :
    (n ≤ 0 → c.s2v_most_similar obj n = Except.error S2VError.InvalidArgument) ∧
    (0 < n → ∃ raw, store.most_similar [k] n = Except.ok raw ∧ raw.length ≤ n.toNat ∧
      c.s2v_most_similar obj n =
        Except.ok (raw.map (fun r => (c.s2v.split_key r.1, r.2)))) := by
  constructor
  · intro hn
    simp [Sense2VecComponent.s2v_most_similar, hk, hb, Sense2Vec.most_similar, hn]
  · intro hn
    have hns : ¬ n ≤ 0 := by omega
    refine ⟨([k].flatMap (fun kk => (store.neighbors.lookup kk).getD [])).take n.toNat,
      ?_, ?_, ?_⟩
    · simp [Sense2Vec.most_similar, hns]
    · exact List.length_take_le n.toNat _
    · simp [Sense2VecComponent.s2v_most_similar, hk, hb, Sense2Vec.most_similar, hns]

/-- Witness for C6: the store has four equally scored neighbors of "dog|NOUN"; `n = 0`
fails with `InvalidArgument`, and `n = 3` returns the store's list truncated to at most
three decoded pairs. -/
theorem c6_most_similar_witness :
    c6Comp.s2v_most_similar c6Obj 0 = Except.error S2VError.InvalidArgument ∧
    (∃ raw, c6Store.most_similar ["dog|NOUN"] 3 = Except.ok raw ∧
      raw.length ≤ (3 : Int).toNat ∧
      c6Comp.s2v_most_similar c6Obj 3 =
        Except.ok (raw.map (fun r => (c6Comp.s2v.split_key r.1, r.2)))) :=
  ⟨(c6_most_similar c6Comp c6Obj c6Store "dog|NOUN" 0 rfl rfl).1 (by decide),
   (c6_most_similar c6Comp c6Obj c6Store "dog|NOUN" 3 rfl rfl).2 (by decide)⟩

/-- C7: on a bound object whose encoded key is absent from the store's table, `vectorOf`
fails with the store's `KeyNotFound` for that key — propagated unchanged, never downgraded
to a default vector — while `hasEntry` on the same object returns false without failing. -/
theorem c7_missing_key (c : Sense2VecComponent) (obj : Obj) (store : Sense2Vec) (k : Key)
    (hb : obj.doc.s2v = some store) (hk : c.s2v_key obj = Except.ok k)
    (habs : store.entries.lookup k = none) :
    c.s2v_vec obj = Except.error (S2VError.KeyNotFound k) ∧
    c.in_s2v obj = Except.ok false := by
  constructor
  · simp [Sense2VecComponent.s2v_vec, hk, hb, Sense2Vec.get, habs]
  · simp [Sense2VecComponent.in_s2v, hk, hb, Sense2Vec.contains, habs]

/-- Witness for C7: the token "cat"/NOUN on a document bound to a store populated only
with "dog|NOUN". -/
theorem c7_missing_key_witness :
    c7Comp.s2v_vec c7Obj = Except.error (S2VError.KeyNotFound "cat|NOUN") ∧
    c7Comp.in_s2v c7Obj = Except.ok false :=
  c7_missing_key c7Comp c7Obj c7Store "cat|NOUN" rfl rfl (by decide)

/-- C8: constructing the layer has no observable effect on the shared object model: the
extension registry is returned exactly as it was, no registration happens, and the layer
comes out with its first run still pending, the requested merge mode, and a fresh empty
store built from the optional vocab's string table. -/
theorem c8_construct_pure (vocab : Option Vocab) (shape : Nat × Nat) (mp : Bool)
    (reg : Registry) :
    (Sense2VecComponent.construct vocab shape mp reg).2 = reg ∧
    (Sense2VecComponent.construct vocab shape mp reg).1.first_run = true ∧
    (Sense2VecComponent.construct vocab shape mp reg).1.merge_phrases = mp ∧
    (Sense2VecComponent.construct vocab shape mp reg).1.s2v
      = Sense2Vec.empty shape (vocab.map Vocab.strings) :=
  ⟨rfl, rfl, rfl, rfl⟩

/-- C9: all four serialization operations are pure passthroughs to the store's own
(de)serialization with the string table excluded: `to_bytes`/`to_disk` forward to the
store with `exclude=["strings"]` and the produced payload never carries the string table;
`from_bytes`/`from_disk` replace the store with one loaded into a fresh default store
with the same exclusion, so the loaded store carries no string table either (it is to be
re-attached by the host). -/
theorem c9_serialization_passthrough (c : Sense2VecComponent) (p : S2VPayload) :
    c.to_bytes = c.s2v.to_bytes ["strings"] ∧
    c.to_bytes.strings = none ∧
    c.to_disk = c.s2v.to_disk ["strings"] ∧
    c.to_disk.strings = none ∧
    c.from_bytes p
      = { c with s2v := (Sense2Vec.empty (1000, 128) none).from_bytes p ["strings"] } ∧
    (c.from_bytes p).s2v.strings = none ∧
    c.from_disk p
      = { c with s2v := (Sense2Vec.empty (1000, 128) none).from_disk p ["strings"] } ∧
    (c.from_disk p).s2v.strings = none := by
  refine ⟨rfl, ?_, rfl, ?_, rfl, ?_, rfl, ?_⟩ <;>
    simp [Sense2VecComponent.to_bytes, Sense2VecComponent.to_disk,
      Sense2VecComponent.from_bytes, Sense2VecComponent.from_disk, Sense2Vec.to_bytes,
      Sense2Vec.to_disk, Sense2Vec.from_bytes, Sense2Vec.from_disk, Sense2Vec.empty]

/-- C10: loading (`from_bytes`/`from_disk`) changes only the layer's store reference:
the merge-mode flag and the one-shot `first_run` flag are exactly what they were, and a
document processed before the load carries the binding to the store that was current when
it was processed — so whenever the loaded store differs from the old one, the document's
binding is not the newly loaded store. -/
theorem c10_load_frame (c : Sense2VecComponent) (p : S2VPayload) (reg : Registry)
    (doc : Doc) (m : Doc → Doc) (h : c.merge_phrases = false) :
    (c.from_bytes p).merge_phrases = c.merge_phrases ∧
    (c.from_bytes p).first_run = c.first_run ∧
    (c.from_disk p).merge_phrases = c.merge_phrases ∧
    (c.from_disk p).first_run = c.first_run ∧
    ((c.call reg doc m).2.2).s2v = some c.s2v ∧
    (c.s2v ≠ (c.from_bytes p).s2v →
      ((c.call reg doc m).2.2).s2v ≠ some ((c.from_bytes p).s2v)) := by
  have hstamp : ((c.call reg doc m).2.2).s2v = some c.s2v := by
    cases hf : c.first_run <;> simp [Sense2VecComponent.call, hf, h]
  refine ⟨rfl, rfl, rfl, rfl, hstamp, ?_⟩
  intro hne heq
  rw [hstamp] at heq
  exact hne (Option.some.inj heq)

/-- Witness for C10: a component with merge mode off and a payload holding a different
table than the current store; the flags survive the load and the previously processed
document still points at the old store. -/
theorem c10_load_frame_witness :
    (c10Comp.from_bytes c10Payload).merge_phrases = c10Comp.merge_phrases ∧
    (c10Comp.from_bytes c10Payload).first_run = c10Comp.first_run ∧
    (c10Comp.from_disk c10Payload).merge_phrases = c10Comp.merge_phrases ∧
    (c10Comp.from_disk c10Payload).first_run = c10Comp.first_run ∧
    ((c10Comp.call c10Reg c10Doc id).2.2).s2v = some c10Comp.s2v ∧
    ((c10Comp.call c10Reg c10Doc id).2.2).s2v
      ≠ some ((c10Comp.from_bytes c10Payload).s2v) := by
  have h := c10_load_frame c10Comp c10Payload c10Reg c10Doc id rfl
  exact ⟨h.1, h.2.1, h.2.2.1, h.2.2.2.1, h.2.2.2.2.1, h.2.2.2.2.2 (by decide)⟩

end Sense2vecSpec
